import Mathlib

/-!
Shallow embedding of `newaccuracycheck.py` (class `TextSimilarityAnalyzer`):
text normalization, the TF-IDF similarity pipeline, per-sheet processing,
workbook aggregation, path validation and the output-path computation.
Python floats are modelled as real numbers; exceptions as `Except`.
-/

namespace AccCheck

/-- Decidable equality of `Except` values, used to evaluate the embedding on
concrete inputs. -/
instance instDecEqExcept {ε α : Type} [DecidableEq ε] [DecidableEq α] :
    DecidableEq (Except ε α) := fun a b =>
  match a, b with
  | .error e, .error f =>
    match decEq e f with
    | isTrue h => isTrue (by rw [h])
    | isFalse h => isFalse (by intro hc; cases hc; exact h rfl)
  | .error _, .ok _ => isFalse (by intro hc; cases hc)
  | .ok _, .error _ => isFalse (by intro hc; cases hc)
  | .ok x, .ok y =>
    match decEq x y with
    | isTrue h => isTrue (by rw [h])
    | isFalse h => isFalse (by intro hc; cases hc; exact h rfl)

/-- A raw spreadsheet cell value: missing/NaN (`pd.isnull` true) or a string. -/
inductive CellValue where
  | null : CellValue
  | str : String → CellValue
deriving DecidableEq

/-- Python `str.lower()` (ASCII fragment), mapped over the characters. -/
def strLower (s : String) : String := ⟨s.data.map Char.toLower⟩

/-- Embeds `str(answer).lower() if not pd.isnull(answer) else ""`
(lines 91-92 of `calculate_similarity`). -/
def normalizeCell : CellValue → String
  | .null => ""
  | .str s => strLower s

/-- Word characters of the default sklearn token pattern `(?u)\b\w\w+\b`
(ASCII fragment): letters, digits and underscore. -/
def isWordChar (c : Char) : Bool := c.isAlphanum || c = '_'

/-- Maximal runs of word characters in a character list; the accumulator holds
the current run reversed. -/
def wordRuns : List Char → List Char → List (List Char)
  | [], cur => if cur.isEmpty then [] else [cur.reverse]
  | c :: rest, cur =>
    if isWordChar c then wordRuns rest (c :: cur)
    else if cur.isEmpty then wordRuns rest [] else cur.reverse :: wordRuns rest []

/-- Tokenization of sklearn's `TfidfVectorizer` with the default token pattern:
maximal word-character runs of length at least 2, after lowercasing. -/
def tokenizePattern (s : String) : List String :=
  ((wordRuns (strLower s).data []).filter (fun r => 2 ≤ r.length)).map (fun r => ⟨r⟩)

/-- The fixed English stop-word set of the library Vectorizer
(`TfidfVectorizer(stop_words='english')`, spec §4.2 "a fixed English stop-word
set"): sklearn's frozen `ENGLISH_STOP_WORDS` list of 318 words (the Glasgow
Information Retrieval Group list). -/
def englishStopWords : List String :=
  ["a", "about", "above", "across", "after", "afterwards", "again",
   "against", "all", "almost", "alone", "along", "already", "also",
   "although", "always", "am", "among", "amongst", "amoungst", "amount", "an",
   "and", "another", "any", "anyhow", "anyone", "anything", "anyway",
   "anywhere", "are", "around", "as", "at", "back", "be", "became", "because",
   "become", "becomes", "becoming", "been", "before", "beforehand", "behind",
   "being", "below", "beside", "besides", "between", "beyond", "bill", "both",
   "bottom", "but", "by", "call", "can", "cannot", "cant", "co", "con",
   "could", "couldnt", "cry", "de", "describe", "detail", "do", "done",
   "down", "due", "during", "each", "eg", "eight", "either", "eleven", "else",
   "elsewhere", "empty", "enough", "etc", "even", "ever", "every", "everyone",
   "everything", "everywhere", "except", "few", "fifteen", "fifty", "fill",
   "find", "fire", "first", "five", "for", "former", "formerly", "forty",
   "found", "four", "from", "front", "full", "further", "get", "give", "go",
   "had", "has", "hasnt", "have", "he", "hence", "her", "here", "hereafter",
   "hereby", "herein", "hereupon", "hers", "herself", "him", "himself", "his",
   "how", "however", "hundred", "i", "ie", "if", "in", "inc", "indeed",
   "interest", "into", "is", "it", "its", "itself", "keep", "last", "latter",
   "latterly", "least", "less", "ltd", "made", "many", "may", "me",
   "meanwhile", "might", "mill", "mine", "more", "moreover", "most", "mostly",
   "move", "much", "must", "my", "myself", "name", "namely", "neither",
   "never", "nevertheless", "next", "nine", "no", "nobody", "none", "noone",
   "nor", "not", "nothing", "now", "nowhere", "of", "off", "often", "on",
   "once", "one", "only", "onto", "or", "other", "others", "otherwise", "our",
   "ours", "ourselves", "out", "over", "own", "part", "per", "perhaps",
   "please", "put", "rather", "re", "same", "see", "seem", "seemed",
   "seeming", "seems", "serious", "several", "she", "should", "show", "side",
   "since", "sincere", "six", "sixty", "so", "some", "somehow", "someone",
   "something", "sometime", "sometimes", "somewhere", "still", "such",
   "system", "take", "ten", "than", "that", "the", "their", "them",
   "themselves", "then", "thence", "there", "thereafter", "thereby",
   "therefore", "therein", "thereupon", "these", "they", "thick", "thin",
   "third", "this", "those", "though", "three", "through", "throughout",
   "thru", "thus", "to", "together", "too", "top", "toward", "towards",
   "twelve", "twenty", "two", "un", "under", "until", "up", "upon", "us",
   "very", "via", "was", "we", "well", "were", "what", "whatever", "when",
   "whence", "whenever", "where", "whereafter", "whereas", "whereby",
   "wherein", "whereupon", "wherever", "whether", "which", "while", "whither",
   "who", "whoever", "whole", "whom", "whose", "why", "will", "with",
   "within", "without", "would", "yet", "you", "your", "yours", "yourself",
   "yourselves"]

/-- Terms of one document: tokens that survive the stop-word filter
(`min_df=1` over a 2-document corpus prunes nothing further). -/
def terms (s : String) : List String :=
  (tokenizePattern s).filter (fun t => ¬ t ∈ englishStopWords)

/-- The vocabulary `fit_transform` builds from the two documents alone
(spec §4.2: per-row-pair vocabulary). sklearn sorts it alphabetically;
only the set of coordinates matters for dot products, so duplicates are
removed and the first-occurrence order is kept. -/
def vocab (d1 d2 : List String) : List String := (d1 ++ d2).dedup

/-- Raw term frequency of `t` in document `d`. -/
def tf (t : String) (d : List String) : Nat := (d.filter (fun x => x = t)).length

/-- Document frequency of `t` over the 2-document corpus. -/
def docFreq (t : String) (d1 d2 : List String) : Nat :=
  (if tf t d1 ≠ 0 then 1 else 0) + (if tf t d2 ≠ 0 then 1 else 0)

/-- Python `str.replace(old, new)` on character lists for non-empty `old`:
scan left to right; on a match emit `rep` and skip the matched characters
(the skip counter holds how many matched characters remain to drop);
otherwise emit the character and move on. -/
def pyReplaceAux (pat rep : List Char) : Nat → List Char → List Char
  | _, [] => []
  | Nat.succ k, _ :: rest => pyReplaceAux pat rep k rest
  | 0, c :: rest =>
    if pat.isPrefixOf (c :: rest) then
      rep ++ pyReplaceAux pat rep (pat.length - 1) rest
    else c :: pyReplaceAux pat rep 0 rest

/-- Python `str.replace` on strings (for non-empty patterns). -/
def pyReplace (s pat rep : String) : String := ⟨pyReplaceAux pat.data rep.data 0 s.data⟩

/-- Embeds line 163: `self.excel_file_path.replace(".xlsx", "-results.xlsx")`. -/
def outputPath (p : String) : String := pyReplace p ".xlsx" "-results.xlsx"

/-- `os.path.splitext`'s extension: the suffix from the last dot of the
basename, provided some earlier basename character is not a dot. -/
def extension (p : String) : String :=
  let rb := (p.data.reverse.takeWhile (fun c => c ≠ '/'))
  let pre := rb.takeWhile (fun c => c ≠ '.')
  if pre.length = rb.length then ""
  else if (rb.drop (pre.length + 1)).any (fun c => c ≠ '.') then ⟨'.' :: pre.reverse⟩
  else ""

/-- What the filesystem holds at a path. -/
inductive FileKind where
  | absent : FileKind
  | regularFile : FileKind
  | directory : FileKind
deriving DecidableEq

/-- Abstract filesystem: kind of entry at each path. -/
def FS : Type := String → FileKind

/-- The three distinct validation errors of `validate_excel_path`. -/
inductive ValErr where
  | fileNotFound : ValErr
  | notAFile : ValErr
  | notAValidExcelFile : ValErr
deriving DecidableEq

/-- The checks of `validate_excel_path` (lines 57-72): existence, regular
file, then extension in `['.xlsx', '.xls']` case-insensitively. -/
def validateCheck (fs : FS) (p : String) : Except ValErr Unit :=
  if fs p = .absent then .error .fileNotFound
  else if fs p ≠ .regularFile then .error .notAFile
  else if ¬ (strLower (extension p) = ".xlsx" ∨ strLower (extension p) = ".xls") then
    .error .notAValidExcelFile
  else .ok ()

/-- The log message `validate_excel_path` tries to write on failure. -/
def valErrMsg : ValErr → String
  | .fileNotFound => "Error validating Excel path: File not found"
  | .notAFile => "Error validating Excel path: Not a file"
  | .notAValidExcelFile => "Error validating Excel path: Not a valid Excel file"

/-- Errors surfaced by `__init__`. -/
inductive InitErr where
  | valErr : ValErr → InitErr
  | attributeError : InitErr
deriving DecidableEq

/-- Embeds `validate_excel_path` as called with the instance state it sees:
`loggerReady` records whether `self.logger` has been assigned. On a
validation failure the handler runs `self.logger.error(...)`; when the
logger attribute is missing this raises `AttributeError` instead of logging
and re-raising the distinct error. Returns the result together with the log
file contents. -/
def validate_excel_path (loggerReady : Bool) (fs : FS) (p : String)
    (log : List String) : Except InitErr String × List String :=
  match validateCheck fs p with
  | .ok _ => (.ok p, log)
  | .error e =>
    if loggerReady then (.error (.valErr e), log ++ [valErrMsg e])
    else (.error .attributeError, log)

/-- Embeds `__init__` (lines 14-21): `validate_excel_path` runs on line 15,
before `self.logger = self.setup_logger()` on line 21, so the logger is not
ready during validation. The log file starts empty. -/
def analyzerInit (fs : FS) (p : String) : Except InitErr String × List String :=
  validate_excel_path false fs p []

/-- TF-IDF inverse document frequency over the 2-document corpus with the
sklearn defaults (`smooth_idf=True`): `ln((1+n)/(1+df)) + 1` with `n = 2`. -/
noncomputable def idf (t : String) (d1 d2 : List String) : ℝ :=
  Real.log (3 / (1 + docFreq t d1 d2)) + 1

/-- Unnormalized TF-IDF weight of term `t` for document `d` of the pair. -/
noncomputable def tfidfRaw (t : String) (d d1 d2 : List String) : ℝ :=
  (tf t d : ℝ) * idf t d1 d2

/-- Squared l2 norm of a document's raw TF-IDF row over the pair vocabulary. -/
noncomputable def rowNormSq (d d1 d2 : List String) : ℝ :=
  ∑ t ∈ (vocab d1 d2).toFinset, (tfidfRaw t d d1 d2) ^ 2

/-- l2 norm of a document's raw TF-IDF row. -/
noncomputable def rowNorm (d d1 d2 : List String) : ℝ := Real.sqrt (rowNormSq d d1 d2)

/-- Entry of the l2-normalized TF-IDF row (sklearn `norm='l2'`; an all-zero
row is left as the zero vector). -/
noncomputable def normalizedEntry (t : String) (d d1 d2 : List String) : ℝ :=
  if rowNorm d d1 d2 = 0 then 0 else tfidfRaw t d d1 d2 / rowNorm d d1 d2

/-- Embeds lines 95-96: `linear_kernel(tfidf_matrix[0], tfidf_matrix[1])[0, 0]`,
the dot product of the two l2-normalized TF-IDF rows. -/
noncomputable def cosineSim (s1 s2 : String) : ℝ :=
  ∑ t ∈ (vocab (terms s1) (terms s2)).toFinset,
    normalizedEntry t (terms s1) (terms s1) (terms s2) *
      normalizedEntry t (terms s2) (terms s1) (terms s2)

/-- The error `fit_transform` raises when no term survives tokenization and
stop-word filtering ("empty vocabulary" `ValueError`). -/
inductive SimErr where
  | emptyVocabulary : SimErr
deriving DecidableEq

/-- Whether line 95 (`self.vectorizer.fit_transform(...)`) is reached:
exactly when both normalized strings are non-empty (Python truthiness of
`if answer1 and answer2`). -/
def vectorizerInvoked (a1 a2 : CellValue) : Bool :=
  decide (normalizeCell a1 ≠ "") && decide (normalizeCell a2 ≠ "")

/-- Embeds `calculate_similarity` (lines 79-104): normalize both values; if
both are non-empty, fit the vectorizer on the pair (raising on an empty
vocabulary) and return the cosine similarity; otherwise return `0.0`. -/
noncomputable def calculate_similarity (a1 a2 : CellValue) : Except SimErr ℝ :=
  let s1 := normalizeCell a1
  let s2 := normalizeCell a2
  if s1 ≠ "" ∧ s2 ≠ "" then
    if vocab (terms s1) (terms s2) = [] then .error .emptyVocabulary
    else .ok (cosineSim s1 s2)
  else .ok 0

/-- Embeds lines 131-134: `"Passed" if cosine_sim > 0.5 else "Failed"`. -/
noncomputable def verdict (score : ℝ) : String :=
  if score > 0.5 then "Passed" else "Failed"

/-- One row of a sheet: mapping from column name to cell value
(`row[column]` raises `KeyError` when the column is absent). -/
abbrev RowMap : Type := List (String × CellValue)

/-- Errors raised inside `process_sheet`. -/
inductive ProcErr where
  | keyError : String → ProcErr
  | simError : SimErr → ProcErr
deriving DecidableEq

/-- `row[column]`: the cell value, or a `KeyError` naming the column. -/
def getCol (r : RowMap) (c : String) : Except ProcErr CellValue :=
  match r.lookup c with
  | some v => .ok v
  | none => .error (.keyError c)

/-- One record of the results dictionary (lines 118-123 and 136-139). -/
structure ResultRow where
  sheetName : String
  rowNum : Int
  cosineSimilarity : ℝ
  result : String

/-- Embeds the body of the `for index, row in dataframe.iterrows()` loop
(lines 128-139) for one row: read the two designated columns, score them,
threshold, and record `index + 1` as the row number. -/
noncomputable def processRow (sheetName : String) (idx : Int) (row : RowMap) :
    Except ProcErr ResultRow := do
  let v1 ← getCol row "Active Voice"
  let v2 ← getCol row "Passive Voice"
  match calculate_similarity v1 v2 with
  | .error e => .error (.simError e)
  | .ok score => .ok ⟨sheetName, idx + 1, score, verdict score⟩

/-- Embeds `process_sheet` (lines 106-146): iterate the rows of the
dataframe (pairs of index label and row) in order; any row error aborts the
whole sheet. -/
noncomputable def process_sheet (sheetName : String) (df : List (Int × RowMap)) :
    Except ProcErr (List ResultRow) :=
  match df with
  | [] => .ok []
  | (idx, row) :: rest => do
    let r ← processRow sheetName idx row
    let rs ← process_sheet sheetName rest
    .ok (r :: rs)

/-- `xls.parse(sheet_name)` with default arguments: the parsed dataframe
carries the default `RangeIndex`, so row `k` (0-based) gets index label `k`. -/
def parseSheet (rows : List RowMap) : List (Int × RowMap) :=
  rows.enum.map (fun p => ((p.1 : Int), p.2))

/-- A workbook: sheets in workbook order, each a name with its parsed rows. -/
structure Workbook where
  sheets : List (String × List RowMap)

/-- Errors surfaced by `analyze_excel_file`: a sheet's processing error, or
the `IndexError` from `all_results[0]` on an empty workbook. -/
inductive AnalyzeErr where
  | sheetError : String → ProcErr → AnalyzeErr
  | indexError : AnalyzeErr
deriving DecidableEq

/-- The `for sheet_name in xls.sheet_names` loop (lines 153-156): process
each sheet in order, stopping at the first error. -/
noncomputable def processAllSheets (sheets : List (String × List RowMap)) :
    Except AnalyzeErr (List (List ResultRow)) :=
  match sheets with
  | [] => .ok []
  | (name, rows) :: rest =>
    match process_sheet name (parseSheet rows) with
    | .error e => .error (.sheetError name e)
    | .ok res =>
      match processAllSheets rest with
      | .error e => .error e
      | .ok others => .ok (res :: others)

/-- Embeds `analyze_excel_file` (lines 148-174): process every sheet;
building `results_df` indexes `all_results[0]` and raises `IndexError` when
no sheet was processed; on success the flattened Report Table is written to
the derived output path. `.ok (path, table)` is the only case in which an
output workbook file is written. -/
noncomputable def analyze_excel_file (wb : Workbook) (excelFilePath : String) :
    Except AnalyzeErr (String × List ResultRow) :=
  match processAllSheets wb.sheets with
  | .error e => .error e
  | .ok allResults =>
    match allResults with
    | [] => .error .indexError
    | _ => .ok (outputPath excelFilePath, allResults.flatten)

/-! Concrete instances used to evaluate the embedding. -/

/-- A filesystem with no entries. -/
def fsMissing : FS := fun _ => .absent

/-- A filesystem holding exactly the regular file `report.xls`. -/
def fsXlsReport : FS := fun p => if p = "report.xls" then .regularFile else .absent

/-- A row with both designated columns present and empty (NaN) cells. -/
def rowNulls : RowMap := [("Active Voice", CellValue.null), ("Passive Voice", CellValue.null)]

/-- A row lacking the "Passive Voice" column. -/
def rowMissingPassive : RowMap := [("Active Voice", CellValue.str "x")]

/-- A dataframe whose index has a gap: labels 0 and 5. -/
def dfGap : List (Int × RowMap) := [((0 : Int), rowNulls), ((5 : Int), rowNulls)]

/-- A workbook with one sheet whose single row lacks a designated column. -/
def wbMissingCol : Workbook := ⟨[("S", [rowMissingPassive])]⟩

/-- A workbook with one sheet and one row of empty cells. -/
def wbOne : Workbook := ⟨[("S", [rowNulls])]⟩

/-! Properties of the TF-IDF weights. -/

theorem docFreq_le_two (t : String) (d1 d2 : List String) : docFreq t d1 d2 ≤ 2 := by
  unfold docFreq
  split <;> split <;> omega

theorem one_le_idf (t : String) (d1 d2 : List String) : 1 ≤ idf t d1 d2 := by
  unfold idf
  have hd : (docFreq t d1 d2 : ℝ) ≤ 2 := by
    exact_mod_cast docFreq_le_two t d1 d2
  have hpos : (0 : ℝ) < 1 + docFreq t d1 d2 := by positivity
  have hlog : 0 ≤ Real.log (3 / (1 + docFreq t d1 d2)) := by
    apply Real.log_nonneg
    rw [le_div_iff₀ hpos]
    linarith
  linarith

theorem tfidfRaw_nonneg (t : String) (d d1 d2 : List String) : 0 ≤ tfidfRaw t d d1 d2 := by
  unfold tfidfRaw
  have := one_le_idf t d1 d2
  have : (0 : ℝ) ≤ idf t d1 d2 := by linarith
  positivity

theorem rowNormSq_nonneg (d d1 d2 : List String) : 0 ≤ rowNormSq d d1 d2 :=
  Finset.sum_nonneg (fun _ _ => sq_nonneg _)

theorem rowNorm_nonneg (d d1 d2 : List String) : 0 ≤ rowNorm d d1 d2 :=
  Real.sqrt_nonneg _

theorem normalizedEntry_nonneg (t : String) (d d1 d2 : List String) :
    0 ≤ normalizedEntry t d d1 d2 := by
  unfold normalizedEntry
  split
  · exact le_refl 0
  · exact div_nonneg (tfidfRaw_nonneg t d d1 d2) (rowNorm_nonneg d d1 d2)

theorem cosineSim_nonneg (s1 s2 : String) : 0 ≤ cosineSim s1 s2 :=
  Finset.sum_nonneg fun t _ =>
    mul_nonneg (normalizedEntry_nonneg t _ _ _) (normalizedEntry_nonneg t _ _ _)

/-- Cauchy-Schwarz for the raw TF-IDF rows: the dot product is at most the
product of the l2 norms. -/
theorem dot_le_norm_mul_norm (d1 d2 : List String) :
    ∑ t ∈ (vocab d1 d2).toFinset, tfidfRaw t d1 d1 d2 * tfidfRaw t d2 d1 d2 ≤
      rowNorm d1 d1 d2 * rowNorm d2 d1 d2 := by
  have hcs := Finset.sum_mul_sq_le_sq_mul_sq (vocab d1 d2).toFinset
    (fun t => tfidfRaw t d1 d1 d2) (fun t => tfidfRaw t d2 d1 d2)
  have hS : 0 ≤ ∑ t ∈ (vocab d1 d2).toFinset, tfidfRaw t d1 d1 d2 * tfidfRaw t d2 d1 d2 :=
    Finset.sum_nonneg fun t _ =>
      mul_nonneg (tfidfRaw_nonneg t d1 d1 d2) (tfidfRaw_nonneg t d2 d1 d2)
  have h1 : ∑ t ∈ (vocab d1 d2).toFinset, tfidfRaw t d1 d1 d2 * tfidfRaw t d2 d1 d2 =
      Real.sqrt ((∑ t ∈ (vocab d1 d2).toFinset, tfidfRaw t d1 d1 d2 * tfidfRaw t d2 d1 d2) ^ 2) :=
    (Real.sqrt_sq hS).symm
  rw [h1, rowNorm, rowNorm, ← Real.sqrt_mul (rowNormSq_nonneg d1 d1 d2)]
  apply Real.sqrt_le_sqrt
  unfold rowNormSq
  exact hcs

theorem cosineSim_le_one (s1 s2 : String) : cosineSim s1 s2 ≤ 1 := by
  unfold cosineSim
  set d1 := terms s1
  set d2 := terms s2
  by_cases h1 : rowNorm d1 d1 d2 = 0
  · have : ∀ t ∈ (vocab d1 d2).toFinset,
        normalizedEntry t d1 d1 d2 * normalizedEntry t d2 d1 d2 = 0 := by
      intro t _
      unfold normalizedEntry
      rw [if_pos h1, zero_mul]
    rw [Finset.sum_eq_zero this]
    norm_num
  by_cases h2 : rowNorm d2 d1 d2 = 0
  · have : ∀ t ∈ (vocab d1 d2).toFinset,
        normalizedEntry t d1 d1 d2 * normalizedEntry t d2 d1 d2 = 0 := by
      intro t _
      unfold normalizedEntry
      rw [if_pos h2, mul_zero]
    rw [Finset.sum_eq_zero this]
    norm_num
  · have hpos1 : 0 < rowNorm d1 d1 d2 := lt_of_le_of_ne (rowNorm_nonneg d1 d1 d2) (Ne.symm h1)
    have hpos2 : 0 < rowNorm d2 d1 d2 := lt_of_le_of_ne (rowNorm_nonneg d2 d1 d2) (Ne.symm h2)
    have hrw : ∀ t ∈ (vocab d1 d2).toFinset,
        normalizedEntry t d1 d1 d2 * normalizedEntry t d2 d1 d2 =
          tfidfRaw t d1 d1 d2 * tfidfRaw t d2 d1 d2 / (rowNorm d1 d1 d2 * rowNorm d2 d1 d2) := by
      intro t _
      unfold normalizedEntry
      rw [if_neg h1, if_neg h2]
      field_simp
    rw [Finset.sum_congr rfl hrw, ← Finset.sum_div]
    rw [div_le_one (by positivity)]
    exact dot_le_norm_mul_norm d1 d2

theorem one_le_tf_of_mem {t : String} {d : List String} (ht : t ∈ d) : 1 ≤ tf t d := by
  unfold tf
  have : t ∈ d.filter (fun x => x = t) := List.mem_filter.mpr ⟨ht, by simp⟩
  exact List.length_pos_of_mem this

theorem tfidfRaw_pos_of_mem {t : String} {d : List String} (d2 : List String) (ht : t ∈ d) :
    0 < tfidfRaw t d d d2 := by
  unfold tfidfRaw
  have h1 : (0 : ℝ) < tf t d := by
    have := one_le_tf_of_mem ht
    exact_mod_cast Nat.lt_of_lt_of_le Nat.zero_lt_one this
  exact mul_pos h1 (lt_of_lt_of_le zero_lt_one (one_le_idf t d d2))

/-- Cosine similarity of a document with itself is `1` whenever at least one
term survives tokenization and stop-word filtering. -/
theorem cosineSim_self (s : String) (h : terms s ≠ []) : cosineSim s s = 1 := by
  unfold cosineSim
  set d := terms s with hd
  obtain ⟨t0, ht0⟩ : ∃ t0, t0 ∈ d := by
    cases hcase : d with
    | nil => exact absurd hcase h
    | cons a l => exact ⟨a, hcase ▸ List.mem_cons_self a l⟩
  have ht0v : t0 ∈ (vocab d d).toFinset := by
    rw [List.mem_toFinset]
    unfold vocab
    rw [List.mem_dedup, List.mem_append]
    exact Or.inl ht0
  have hApos : 0 < rowNormSq d d d := by
    apply Finset.sum_pos' (fun t _ => sq_nonneg _)
    exact ⟨t0, ht0v, pow_pos (tfidfRaw_pos_of_mem d ht0) 2⟩
  have hNpos : 0 < rowNorm d d d := Real.sqrt_pos.mpr hApos
  have hNne : rowNorm d d d ≠ 0 := ne_of_gt hNpos
  have hNN : rowNorm d d d * rowNorm d d d = rowNormSq d d d := by
    unfold rowNorm
    exact Real.mul_self_sqrt (le_of_lt hApos)
  have hrw : ∀ t ∈ (vocab d d).toFinset,
      normalizedEntry t d d d * normalizedEntry t d d d =
        tfidfRaw t d d d ^ 2 / rowNormSq d d d := by
    intro t _
    unfold normalizedEntry
    rw [if_neg hNne, div_mul_div_comm, hNN, sq]
  rw [Finset.sum_congr rfl hrw, ← Finset.sum_div]
  rw [← rowNormSq]
  exact div_self (ne_of_gt hApos)

/-! Behaviour of `calculate_similarity` on the three branch shapes. -/

/-- When either normalized side is empty, `calculate_similarity` returns
`0.0` without invoking the vectorizer. -/
theorem calculate_similarity_short_circuit (a1 a2 : CellValue)
    (h : normalizeCell a1 = "" ∨ normalizeCell a2 = "") :
    calculate_similarity a1 a2 = .ok 0 ∧ vectorizerInvoked a1 a2 = false := by
  constructor
  · unfold calculate_similarity
    rw [if_neg]
    intro hc
    rcases h with h | h
    · exact hc.1 h
    · exact hc.2 h
  · unfold vectorizerInvoked
    rcases h with h | h <;> simp [h]

/-- When both normalized sides are non-empty and some term survives, the
result is the cosine similarity of the pair's TF-IDF rows. -/
theorem calculate_similarity_cosine (a1 a2 : CellValue)
    (h1 : normalizeCell a1 ≠ "") (h2 : normalizeCell a2 ≠ "")
    (hv : vocab (terms (normalizeCell a1)) (terms (normalizeCell a2)) ≠ []) :
    calculate_similarity a1 a2 = .ok (cosineSim (normalizeCell a1) (normalizeCell a2)) := by
  unfold calculate_similarity
  rw [if_pos ⟨h1, h2⟩, if_neg hv]

/-- When both normalized sides are non-empty but no term survives,
`fit_transform` raises the empty-vocabulary error. -/
theorem calculate_similarity_emptyVocab (a1 a2 : CellValue)
    (h1 : normalizeCell a1 ≠ "") (h2 : normalizeCell a2 ≠ "")
    (hv : vocab (terms (normalizeCell a1)) (terms (normalizeCell a2)) = []) :
    calculate_similarity a1 a2 = .error .emptyVocabulary := by
  unfold calculate_similarity
  rw [if_pos ⟨h1, h2⟩, if_pos hv]

/-! Structural lemmas about `processRow` and `process_sheet`. -/

theorem processRow_eq (name : String) (idx : Int) (row : RowMap) (v1 v2 : CellValue)
    (score : ℝ) (hg1 : getCol row "Active Voice" = .ok v1)
    (hg2 : getCol row "Passive Voice" = .ok v2)
    (hc : calculate_similarity v1 v2 = .ok score) :
    processRow name idx row = .ok ⟨name, idx + 1, score, verdict score⟩ := by
  simp [processRow, hg1, hg2, hc, Bind.bind, Except.bind]

theorem processRow_inv (name : String) (idx : Int) (row : RowMap) (r : ResultRow)
    (h : processRow name idx row = .ok r) :
    ∃ v1 v2 score, getCol row "Active Voice" = .ok v1 ∧
      getCol row "Passive Voice" = .ok v2 ∧ calculate_similarity v1 v2 = .ok score ∧
      r = ⟨name, idx + 1, score, verdict score⟩ := by
  cases hg1 : getCol row "Active Voice" with
  | error e => simp [processRow, hg1, Bind.bind, Except.bind] at h
  | ok v1 =>
    cases hg2 : getCol row "Passive Voice" with
    | error e => simp [processRow, hg1, hg2, Bind.bind, Except.bind] at h
    | ok v2 =>
      cases hc : calculate_similarity v1 v2 with
      | error e => simp [processRow, hg1, hg2, hc, Bind.bind, Except.bind] at h
      | ok score =>
        refine ⟨v1, v2, score, rfl, rfl, hc, ?_⟩
        simp [processRow, hg1, hg2, hc, Bind.bind, Except.bind] at h
        exact h.symm

theorem process_sheet_cons_inv (name : String) (idx : Int) (row : RowMap)
    (rest : List (Int × RowMap)) (res : List ResultRow)
    (h : process_sheet name ((idx, row) :: rest) = .ok res) :
    ∃ r rs, processRow name idx row = .ok r ∧ process_sheet name rest = .ok rs ∧
      res = r :: rs := by
  cases hr : processRow name idx row with
  | error e => simp [process_sheet, hr, Bind.bind, Except.bind] at h
  | ok r =>
    cases hrs : process_sheet name rest with
    | error e => simp [process_sheet, hr, hrs, Bind.bind, Except.bind] at h
    | ok rs =>
      refine ⟨r, rs, rfl, rfl, ?_⟩
      simp [process_sheet, hr, hrs, Bind.bind, Except.bind] at h
      exact h.symm

theorem process_sheet_result_verdict (name : String) (df : List (Int × RowMap))
    (res : List ResultRow) (h : process_sheet name df = .ok res) :
    ∀ r ∈ res, r.result = verdict r.cosineSimilarity := by
  induction df generalizing res with
  | nil =>
    simp only [process_sheet] at h
    cases h
    intro r hr
    cases hr
  | cons p rest ih =>
    obtain ⟨idx, row⟩ := p
    obtain ⟨r0, rs, hr0, hrs, hres⟩ := process_sheet_cons_inv name idx row rest res h
    subst hres
    intro r hr
    cases hr with
    | head =>
      obtain ⟨v1, v2, score, _, _, _, hshape⟩ := processRow_inv name idx row r0 hr0
      subst hshape
      rfl
    | tail _ hmem => exact ih rs hrs r hmem

theorem process_sheet_length (name : String) (df : List (Int × RowMap))
    (res : List ResultRow) (h : process_sheet name df = .ok res) :
    res.length = df.length := by
  induction df generalizing res with
  | nil =>
    simp only [process_sheet] at h
    cases h
    rfl
  | cons p rest ih =>
    obtain ⟨idx, row⟩ := p
    obtain ⟨r0, rs, hr0, hrs, hres⟩ := process_sheet_cons_inv name idx row rest res h
    subst hres
    simp [ih rs hrs]

theorem process_sheet_rowNum (name : String) (df : List (Int × RowMap))
    (res : List ResultRow) (h : process_sheet name df = .ok res)
    (k : Nat) (hk : k < res.length) (hk' : k < df.length) :
    (res.get ⟨k, hk⟩).rowNum = (df.get ⟨k, hk'⟩).1 + 1 := by
  induction df generalizing res k with
  | nil => cases hk'
  | cons p rest ih =>
    obtain ⟨idx, row⟩ := p
    obtain ⟨r0, rs, hr0, hrs, hres⟩ := process_sheet_cons_inv name idx row rest res h
    subst hres
    cases k with
    | zero =>
      obtain ⟨v1, v2, score, _, _, _, hshape⟩ := processRow_inv name idx row r0 hr0
      subst hshape
      rfl
    | succ k =>
      exact ih rs hrs k (Nat.lt_of_succ_lt_succ hk) (Nat.lt_of_succ_lt_succ hk')

theorem parseSheet_length (rows : List RowMap) : (parseSheet rows).length = rows.length := by
  simp [parseSheet]

theorem parseSheet_fst (rows : List RowMap) (k : Nat) (hk : k < (parseSheet rows).length) :
    ((parseSheet rows).get ⟨k, hk⟩).1 = (k : Int) := by
  simp [parseSheet, List.get_eq_getElem]

/-- If some sheet of the list fails to process, the sheet loop surfaces a
`sheetError`. -/
theorem processAllSheets_error (sheets : List (String × List RowMap))
    (h : ∃ p ∈ sheets, ∃ e, process_sheet p.1 (parseSheet p.2) = .error e) :
    ∃ n e, processAllSheets sheets = .error (.sheetError n e) := by
  induction sheets with
  | nil =>
    obtain ⟨p, hp, _⟩ := h
    cases hp
  | cons q rest ih =>
    obtain ⟨name, rows⟩ := q
    cases hps : process_sheet name (parseSheet rows) with
    | error e => exact ⟨name, e, by simp [processAllSheets, hps]⟩
    | ok res =>
      obtain ⟨p, hp, e, hpe⟩ := h
      cases hp with
      | head =>
        rw [hpe] at hps
        cases hps
      | tail _ hmem =>
        obtain ⟨n, e', hrec⟩ := ih ⟨p, hmem, e, hpe⟩
        exact ⟨n, e', by simp [processAllSheets, hps, hrec]⟩

theorem strLower_empty_iff (s : String) : strLower s = "" ↔ s = "" := by
  constructor
  · intro h
    have hd : s.data.map Char.toLower = [] := congrArg String.data h
    have hnil : s.data = [] := List.map_eq_nil_iff.mp hd
    cases s with
    | mk data =>
      cases hnil
      rfl
  · intro h
    rw [h]
    rfl

/-- Evaluation of `process_sheet` on the one-row dataframe of empty cells. -/
theorem process_sheet_one_nulls :
    process_sheet "S" [((0 : Int), rowNulls)] = .ok [⟨"S", 1, 0, "Failed"⟩] := by
  have hc : calculate_similarity .null .null = .ok 0 := by
    simp [calculate_similarity, normalizeCell]
  have hv : verdict 0 = "Failed" := by
    rw [verdict, if_neg]
    norm_num
  simp [process_sheet, processRow, getCol, rowNulls, List.lookup, Bind.bind, Except.bind, hc, hv]

/-- Evaluation of `process_sheet` on the gapped-index dataframe. -/
theorem process_sheet_dfGap :
    process_sheet "S" dfGap = .ok [⟨"S", 1, 0, "Failed"⟩, ⟨"S", 6, 0, "Failed"⟩] := by
  have hc : calculate_similarity .null .null = .ok 0 := by
    simp [calculate_similarity, normalizeCell]
  have hv : verdict 0 = "Failed" := by
    rw [verdict, if_neg]
    norm_num
  simp [process_sheet, processRow, getCol, dfGap, rowNulls, List.lookup, Bind.bind,
    Except.bind, hc, hv]

/-- The sheet with a missing "Passive Voice" column fails with a `KeyError`. -/
theorem process_sheet_missing_col :
    process_sheet "S" (parseSheet [rowMissingPassive]) = .error (.keyError "Passive Voice") := by
  have hp : parseSheet [rowMissingPassive] = [((0 : Int), rowMissingPassive)] := by decide
  rw [hp]
  simp [process_sheet, processRow, getCol, rowMissingPassive, List.lookup, Bind.bind, Except.bind]

/-! The claims. -/

/-- C1: the claim says the output workbook path is the input path with the
extension-bearing suffix replaced by the report suffix, hence distinct from
the input path. The code computes `path.replace(".xlsx", "-results.xlsx")`,
which leaves a validated `.xls` path unchanged: the run writes the Report
Table to the input path itself, overwriting the input workbook. -/
theorem claim_C1 :
    validateCheck fsXlsReport "report.xls" = .ok () ∧
      outputPath "report.xls" = "report.xls" ∧
      analyze_excel_file wbOne "report.xls" = .ok ("report.xls", [⟨"S", 1, 0, "Failed"⟩]) := by
  refine ⟨by decide, by decide, ?_⟩
  have hp : parseSheet [rowNulls] = [((0 : Int), rowNulls)] := by decide
  have ho : outputPath "report.xls" = "report.xls" := by decide
  simp [analyze_excel_file, processAllSheets, wbOne, hp, process_sheet_one_nulls, ho]

/-- C2: the claim says an invalid path fails validation with the distinct
error and the reason is recorded in the log file. `validate_excel_path` does
raise the distinct error, but its handler runs `self.logger.error` before
`__init__` has assigned `self.logger` (setup happens on line 21, after
validation on line 15), so the surfaced error is an `AttributeError` and the
log stays empty. -/
theorem claim_C2 :
    validateCheck fsMissing "missing.xlsx" = .error .fileNotFound ∧
      analyzerInit fsMissing "missing.xlsx" = (.error .attributeError, []) := by
  constructor
  · decide
  · decide

/-- C3 counterexample: with a non-empty left side and an empty right side
the Vectorizer is not invoked, contrary to the claim that vectorization
proceeds when exactly one side is empty. -/
theorem claim_C3_counterexample :
    vectorizerInvoked (.str "a") (.str "") = false := by decide

/-- C3 (amended): when exactly one of the two normalized strings is empty,
`calculate_similarity` short-circuits to the score `0.0` and the Vectorizer
is not invoked. -/
theorem claim_C3 (a1 a2 : CellValue)
    (h : (normalizeCell a1 = "" ∧ normalizeCell a2 ≠ "") ∨
      (normalizeCell a1 ≠ "" ∧ normalizeCell a2 = "")) :
    calculate_similarity a1 a2 = .ok 0 ∧ vectorizerInvoked a1 a2 = false := by
  apply calculate_similarity_short_circuit
  rcases h with h | h
  · exact Or.inl h.1
  · exact Or.inr h.2

/-- C3 witness: the pair ("a", "") instantiates the amended claim. -/
theorem claim_C3_witness :
    (normalizeCell (.str "a") ≠ "" ∧ normalizeCell (.str "") = "") ∧
      calculate_similarity (.str "a") (.str "") = .ok 0 ∧
      vectorizerInvoked (.str "a") (.str "") = false :=
  ⟨⟨by decide, by decide⟩, claim_C3 (.str "a") (.str "") (Or.inr ⟨by decide, by decide⟩)⟩

/-- C4 counterexample: the identical non-empty pair ("?", "?") yields no
token of two word characters, so `fit_transform` raises the
empty-vocabulary error instead of returning the score 1.0. -/
theorem claim_C4_counterexample :
    calculate_similarity (.str "?") (.str "?") = .error .emptyVocabulary ∧
      calculate_similarity (.str "?") (.str "?") ≠ .ok 1 := by
  have h : calculate_similarity (.str "?") (.str "?") = .error .emptyVocabulary :=
    calculate_similarity_emptyVocab _ _ (by decide) (by decide) (by decide)
  refine ⟨h, ?_⟩
  rw [h]
  intro hc
  cases hc

/-- C4 (amended): for identical non-empty strings at least one of whose
tokens survives tokenization and stop-word filtering, the similarity score
is exactly 1; pairs with no surviving token raise an empty-vocabulary error
instead. -/
theorem claim_C4 (s : String) (hne : s ≠ "") (hterms : terms (strLower s) ≠ []) :
    calculate_similarity (.str s) (.str s) = .ok 1 := by
  have h1 : normalizeCell (.str s) ≠ "" := by
    intro hc
    exact hne ((strLower_empty_iff s).mp hc)
  have hvne : vocab (terms (normalizeCell (.str s))) (terms (normalizeCell (.str s))) ≠ [] := by
    intro hc
    unfold vocab at hc
    rw [List.dedup_eq_nil, List.append_eq_nil] at hc
    exact hterms hc.1
  have hcos := calculate_similarity_cosine (.str s) (.str s) h1 h1 hvne
  rw [hcos]
  have hself : cosineSim (strLower s) (strLower s) = 1 := cosineSim_self (strLower s) hterms
  rw [show normalizeCell (.str s) = strLower s from rfl, hself]

/-- C4 witness: the identical pair ("hello world", "hello world") scores 1. -/
theorem claim_C4_witness :
    ("hello world" ≠ "" ∧ terms (strLower "hello world") ≠ []) ∧
      calculate_similarity (.str "hello world") (.str "hello world") = .ok 1 :=
  ⟨⟨by decide, by decide⟩, claim_C4 "hello world" (by decide) (by decide)⟩

/-- C5: when a row has both designated columns and either cell is missing or
normalizes to the empty string, the similarity score is exactly 0, the
Vectorizer is not invoked, and the row's verdict is "Failed". -/
theorem claim_C5 (name : String) (idx : Int) (row : RowMap) (v1 v2 : CellValue)
    (hg1 : getCol row "Active Voice" = .ok v1) (hg2 : getCol row "Passive Voice" = .ok v2)
    (h : normalizeCell v1 = "" ∨ normalizeCell v2 = "") :
    calculate_similarity v1 v2 = .ok 0 ∧ vectorizerInvoked v1 v2 = false ∧
      processRow name idx row = .ok ⟨name, idx + 1, 0, "Failed"⟩ := by
  obtain ⟨hc, hvi⟩ := calculate_similarity_short_circuit v1 v2 h
  refine ⟨hc, hvi, ?_⟩
  have hv : verdict 0 = "Failed" := by
    rw [verdict, if_neg]
    norm_num
  have := processRow_eq name idx row v1 v2 0 hg1 hg2 hc
  rw [hv] at this
  exact this

/-- C5 witness: the all-null row yields score 0, no vectorization, and the
verdict "Failed". -/
theorem claim_C5_witness :
    (getCol rowNulls "Active Voice" = .ok .null ∧ getCol rowNulls "Passive Voice" = .ok .null ∧
      normalizeCell .null = "") ∧
      calculate_similarity .null .null = .ok 0 ∧ vectorizerInvoked .null .null = false ∧
      processRow "S" 0 rowNulls = .ok ⟨"S", 0 + 1, 0, "Failed"⟩ :=
  ⟨⟨by decide, by decide, by decide⟩,
    claim_C5 "S" 0 rowNulls .null .null (by decide) (by decide) (Or.inl (by decide))⟩

/-- C6: every result row of a processed sheet has verdict "Passed" exactly
when its similarity score strictly exceeds the fixed threshold 0.5; a score
of exactly 0.5 yields "Failed". -/
theorem claim_C6 (name : String) (df : List (Int × RowMap)) (res : List ResultRow)
    (h : process_sheet name df = .ok res) (r : ResultRow) (hr : r ∈ res) :
    (r.result = "Passed" ↔ r.cosineSimilarity > 0.5) ∧
      (r.cosineSimilarity = 0.5 → r.result = "Failed") := by
  have hverd := process_sheet_result_verdict name df res h r hr
  by_cases hgt : r.cosineSimilarity > 0.5
  · rw [verdict, if_pos hgt] at hverd
    exact ⟨⟨fun _ => hgt, fun _ => hverd⟩, fun heq => absurd hgt (by rw [heq]; norm_num)⟩
  · rw [verdict, if_neg hgt] at hverd
    refine ⟨⟨fun hp => ?_, fun hgt' => absurd hgt' hgt⟩, fun _ => hverd⟩
    rw [hverd] at hp
    exact absurd hp (by decide)

/-- C6 witness: the one-row sheet of empty cells yields the row
⟨"S", 1, 0, "Failed"⟩, whose verdict satisfies the threshold property. -/
theorem claim_C6_witness :
    process_sheet "S" [((0 : Int), rowNulls)] = .ok [⟨"S", 1, 0, "Failed"⟩] ∧
      (((⟨"S", 1, 0, "Failed"⟩ : ResultRow).result = "Passed" ↔
        (⟨"S", 1, 0, "Failed"⟩ : ResultRow).cosineSimilarity > 0.5) ∧
      ((⟨"S", 1, 0, "Failed"⟩ : ResultRow).cosineSimilarity = 0.5 →
        (⟨"S", 1, 0, "Failed"⟩ : ResultRow).result = "Failed")) :=
  ⟨process_sheet_one_nulls,
    claim_C6 "S" [((0 : Int), rowNulls)] [⟨"S", 1, 0, "Failed"⟩] process_sheet_one_nulls
      ⟨"S", 1, 0, "Failed"⟩ (List.mem_singleton.mpr rfl)⟩

/-- C7: if any sheet of the workbook fails to process (for example because a
designated column is missing), the whole run fails with the propagated sheet
error and `analyze_excel_file` never reaches the output-writing branch: no
output workbook is written. -/
theorem claim_C7 (wb : Workbook) (path : String)
    (h : ∃ p ∈ wb.sheets, ∃ e, process_sheet p.1 (parseSheet p.2) = .error e) :
    (∃ n e, analyze_excel_file wb path = .error (.sheetError n e)) ∧
      ∀ out, analyze_excel_file wb path ≠ .ok out := by
  obtain ⟨n, e, hrec⟩ := processAllSheets_error wb.sheets h
  constructor
  · exact ⟨n, e, by simp [analyze_excel_file, hrec]⟩
  · intro out hc
    rw [show analyze_excel_file wb path = .error (.sheetError n e) from by
      simp [analyze_excel_file, hrec]] at hc
    cases hc

/-- C7 witness: the workbook whose only sheet lacks the "Passive Voice"
column produces no output file. -/
theorem claim_C7_witness :
    (∃ p ∈ wbMissingCol.sheets, ∃ e, process_sheet p.1 (parseSheet p.2) = .error e) ∧
      analyze_excel_file wbMissingCol "in.xlsx" ≠ .ok ("in-results.xlsx", []) := by
  have hyp : ∃ p ∈ wbMissingCol.sheets, ∃ e, process_sheet p.1 (parseSheet p.2) = .error e :=
    ⟨("S", [rowMissingPassive]), by simp [wbMissingCol],
      .keyError "Passive Voice", process_sheet_missing_col⟩
  exact ⟨hyp, (claim_C7 wbMissingCol "in.xlsx" hyp).2 _⟩

/-- C8 counterexample: on a dataframe whose index labels are 0 and 5, the
recorded Row values are 1 and 6, not the claimed positional values 1 and 2:
the code records `index + 1`, which is not independent of index gaps. -/
theorem claim_C8_counterexample :
    ¬ ((process_sheet "S" dfGap).map (fun res => res.map (fun r => r.rowNum)) =
      .ok [1, 2]) := by
  rw [process_sheet_dfGap]
  intro hc
  simp [Except.map] at hc

/-- C8 (amended): the recorded Row value is the dataframe index label plus
one; for sheets parsed by the aggregator the index is the default 0-based
positional one, so the k-th result row records k + 1. -/
theorem claim_C8 (name : String) (rows : List RowMap) (res : List ResultRow)
    (h : process_sheet name (parseSheet rows) = .ok res)
    (k : Nat) (hk : k < res.length) :
    (res.get ⟨k, hk⟩).rowNum = (k : Int) + 1 := by
  have hk' : k < (parseSheet rows).length := by
    rw [← process_sheet_length name (parseSheet rows) res h]
    exact hk
  rw [process_sheet_rowNum name (parseSheet rows) res h k hk hk', parseSheet_fst rows k hk']

/-- C8 witness: the first result row of the parsed one-row sheet records
Row value 1. -/
theorem claim_C8_witness :
    process_sheet "S" (parseSheet [rowNulls]) = .ok [⟨"S", 1, 0, "Failed"⟩] ∧
      (([⟨"S", 1, 0, "Failed"⟩] : List ResultRow).get ⟨0, by norm_num⟩).rowNum =
        ((0 : Nat) : Int) + 1 := by
  have hp : parseSheet [rowNulls] = [((0 : Int), rowNulls)] := by decide
  have h : process_sheet "S" (parseSheet [rowNulls]) = .ok [⟨"S", 1, 0, "Failed"⟩] := by
    rw [hp]
    exact process_sheet_one_nulls
  exact ⟨h, claim_C8 "S" [rowNulls] [⟨"S", 1, 0, "Failed"⟩] h 0 (by norm_num)⟩

/-- C9: every score `calculate_similarity` returns lies in [0, 1]. -/
theorem claim_C9 (a1 a2 : CellValue) (r : ℝ)
    (h : calculate_similarity a1 a2 = .ok r) : 0 ≤ r ∧ r ≤ 1 := by
  simp only [calculate_similarity] at h
  by_cases hb : normalizeCell a1 ≠ "" ∧ normalizeCell a2 ≠ ""
  · rw [if_pos hb] at h
    by_cases hv : vocab (terms (normalizeCell a1)) (terms (normalizeCell a2)) = []
    · rw [if_pos hv] at h
      cases h
    · rw [if_neg hv] at h
      cases h
      exact ⟨cosineSim_nonneg _ _, cosineSim_le_one _ _⟩
  · rw [if_neg hb] at h
    cases h
    norm_num

/-- C9 witness: the pair ("a", missing) returns the score 0, which lies in
[0, 1]. -/
theorem claim_C9_witness :
    calculate_similarity (.str "a") .null = .ok 0 ∧ (0 ≤ (0 : ℝ) ∧ (0 : ℝ) ≤ 1) := by
  have h : calculate_similarity (.str "a") .null = .ok 0 :=
    (calculate_similarity_short_circuit (.str "a") .null (Or.inr rfl)).1
  exact ⟨h, claim_C9 (.str "a") .null 0 h⟩

/-- C10: on a workbook with zero sheets, `analyze_excel_file` raises the
`IndexError` from `all_results[0]` before any output workbook is created. -/
theorem claim_C10 (path : String) :
    analyze_excel_file ⟨[]⟩ path = .error .indexError := rfl

end AccCheck
